import Mathlib

/-!
Verification of the Work-Item Lifecycle & Priority Ranking Engine of
`src/app.py` (Central Farming Tool).

The relevant parts of the program are shallowly embedded below:
* SQL tables become Lean structures / lists of rows; `DB` is the whole store.
* Each SQL statement executed by a Python function becomes a pure state
  transformer on `DB`; a SQLAlchemy transaction (single `conn.commit()` at the
  end of a `with get_connection()` block) is modelled by returning the original
  state whenever a constituent statement fails before the commit.
* Timestamps (`NOW()`) are `Nat` parameters threaded in by the caller; calendar
  dates (`CURRENT_DATE`, `last_order_date`, `month_date`) are proleptic
  Gregorian `CDate` values with day-number arithmetic via `rataDie`.
-/

/-! ### Calendar arithmetic (Postgres DATE / INTERVAL semantics) -/

/-- Gregorian leap-year test. -/
def isLeap (y : Nat) : Bool :=
  y % 4 == 0 && (y % 100 != 0 || y % 400 == 0)

/-- Number of days of month `m` (1-12) in year `y`. -/
def daysInMonth (y m : Nat) : Nat :=
  if m = 2 then (if isLeap y then 29 else 28)
  else if m = 4 ∨ m = 6 ∨ m = 9 ∨ m = 11 then 30
  else 31

/-- Days strictly before month `m` within year `y`. -/
def daysBeforeMonth (y m : Nat) : Nat :=
  let L : Nat := if isLeap y then 1 else 0
  match m with
  | 1 => 0
  | 2 => 31
  | 3 => 59 + L
  | 4 => 90 + L
  | 5 => 120 + L
  | 6 => 151 + L
  | 7 => 181 + L
  | 8 => 212 + L
  | 9 => 243 + L
  | 10 => 273 + L
  | 11 => 304 + L
  | _ => 334 + L

/-- A calendar date, year ≥ 1, month 1-12, day 1-31. -/
structure CDate where
  year : Nat
  month : Nat
  day : Nat
deriving DecidableEq

/-- Day number of a date in the proleptic Gregorian calendar (Rata Die). -/
def rataDie (d : CDate) : Nat :=
  365 * (d.year - 1) + (d.year - 1) / 4 - (d.year - 1) / 100 + (d.year - 1) / 400
    + daysBeforeMonth d.year d.month + d.day

/-- Postgres `date1 - date2` (difference in days, as an integer). -/
def dateDiff (a b : CDate) : Int :=
  (rataDie a : Int) - (rataDie b : Int)

/-- Postgres `d + interval '1 month'`: advance the month, clamping the day to
the length of the target month. -/
def addOneMonthClamped (d : CDate) : CDate :=
  if d.month = 12 then
    ⟨d.year + 1, 1, min d.day (daysInMonth (d.year + 1) 1)⟩
  else
    ⟨d.year, d.month + 1, min d.day (daysInMonth d.year (d.month + 1))⟩

/-- Postgres date comparison, via day numbers. -/
def dateLeb (a b : CDate) : Bool :=
  rataDie a ≤ rataDie b

/-- Postgres `date_trunc('month', d)`: first day of the month of `d`. -/
def monthFirst (d : CDate) : CDate :=
  ⟨d.year, d.month, 1⟩

/-! ### Priority Engine (`fetch_work_items_for_agent`, CASE expressions) -/

/-- The `priority_bucket_key` CASE expression of the board query in
`fetch_work_items_for_agent` (src/app.py): every arm other than the final ELSE
is guarded by `days_since_last_activity IS NOT NULL`. -/
def priority_bucket_key (days_since_last_activity : Option Int) (orders_m0 : Int) : String :=
  match days_since_last_activity with
  | some n =>
    if n ≤ 8 ∧ orders_m0 ≥ 2 then "emerging_power_user"
    else if n ≥ 40 then "ar40"
    else if n ≥ 28 then "ar28"
    else if n ≥ 14 then "ar14"
    else if n ≥ 7 then "ar7"
    else "regular_activation"
  | none => "regular_activation"

/-- The `priority_bucket_rank` CASE expression of the board query in
`fetch_work_items_for_agent` (src/app.py). -/
def priority_bucket_rank (days_since_last_activity : Option Int) (orders_m0 : Int) : Int :=
  match days_since_last_activity with
  | some n =>
    if n ≤ 8 ∧ orders_m0 ≥ 2 then 50
    else if n ≥ 40 then 10
    else if n ≥ 28 then 20
    else if n ≥ 14 then 30
    else if n ≥ 7 then 40
    else 60
  | none => 60

/-- The priority table exactly as the spec words it (§4.1): first match wins,
evaluated top to bottom; a null `days_since_last_activity` satisfies no
threshold condition and falls through to `regular_activation`. -/
def specPriority (days : Option Int) (orders : Int) : String × Int :=
  match days with
  | some n =>
    if n ≤ 8 ∧ orders ≥ 2 then ("emerging_power_user", 50)
    else if n ≥ 40 then ("ar40", 10)
    else if n ≥ 28 then ("ar28", 20)
    else if n ≥ 14 then ("ar14", 30)
    else if n ≥ 7 then ("ar7", 40)
    else ("regular_activation", 60)
  | none => ("regular_activation", 60)

/-- C3: the priority function is a pure, deterministic, total function of
`(days_since_last_activity, orders_this_month)`, evaluated first-match-wins in
the order `emerging_power_user (50)`, `ar40 (10)`, `ar28 (20)`, `ar14 (30)`,
`ar7 (40)`, else (including null days) `regular_activation (60)`; in particular
`(45,0) = (ar40,10)`, `(5,3) = (emerging_power_user,50)`,
`(null,0) = (regular_activation,60)`, `(7,0) = (ar7,40)`, `(15,5) = (ar14,30)`. -/
theorem priority_engine_first_match :
    (∀ (d : Option Int) (o : Int),
      (priority_bucket_key d o, priority_bucket_rank d o) = specPriority d o)
    ∧ (priority_bucket_key (some 45) 0, priority_bucket_rank (some 45) 0) = ("ar40", 10)
    ∧ (priority_bucket_key (some 5) 3, priority_bucket_rank (some 5) 3) = ("emerging_power_user", 50)
    ∧ (priority_bucket_key none 0, priority_bucket_rank none 0) = ("regular_activation", 60)
    ∧ (priority_bucket_key (some 7) 0, priority_bucket_rank (some 7) 0) = ("ar7", 40)
    ∧ (priority_bucket_key (some 15) 5, priority_bucket_rank (some 15) 5) = ("ar14", 30) := by
  refine ⟨?_, by decide, by decide, by decide, by decide, by decide⟩
  intro d o
  cases d with
  | none => rfl
  | some n =>
    simp only [priority_bucket_key, priority_bucket_rank, specPriority]
    split_ifs <;> rfl

/-! ### Data model (`DB` = the relational store of src/app.py) -/

/-- A row of `public.partner` (the columns the core reads). -/
structure Partner where
  id : Nat
  external_partner_id : String
  partner_name : String
  partner_type_tag : Option String
  city : String
  partner_type : String
  handover_status : Option String
  last_order_date : Option CDate
deriving DecidableEq

/-- A row of `public.partner_monthly_metrics` (the columns the core reads).
`orders` and `net_revenue` are nullable in the store; the board query wraps
them in `COALESCE(..., 0)`. -/
structure MonthlyMetric where
  partner_id : Nat
  month_date : CDate
  orders : Option Int
  net_revenue : Option Int
deriving DecidableEq

/-- A row of `public.work_item`. `created_at`, `updated_at`, `refreshed_at`
are timestamps (`Nat`). -/
structure WorkItemRow where
  id : Nat
  partner_id : Nat
  work_date : Option CDate
  status : String
  reason_to_work : Option String
  is_active : Bool
  created_at : Nat
  refreshed_at : Option Nat
  updated_at : Nat
deriving DecidableEq

/-- A row of `work_item_activity_log` (columns per `ensure_activity_log_table`
plus the `call_status` / `follow_up_date` columns the INSERT in
`persist_status_change` writes). -/
structure ActivityLogRow where
  work_item_id : Nat
  partner_id : Nat
  external_partner_id : Option String
  partner_name : Option String
  agent_id : Nat
  agent_name : Option String
  status : String
  doctor_sentiment : Option String
  primary_concern : Option String
  next_suggested_action : Option String
  call_status : Option String
  follow_up_date : Option CDate
  created_at : Nat
deriving DecidableEq

/-- The relational store. The three `has*` flags record whether the optional
`work_item` columns provisioned by `ensure_workitem_columns` exist yet in the
schema; a row's `is_active` / `created_at` / `refreshed_at` field is only
meaningful once the corresponding column exists. -/
structure DB where
  hasIsActiveColumn : Bool
  hasCreatedAtColumn : Bool
  hasRefreshedAtColumn : Bool
  work_item : List WorkItemRow
  partner : List Partner
  partner_agent_map : List (Nat × Nat)
  partner_monthly_metrics : List MonthlyMetric
  work_item_activity_log : List ActivityLogRow
deriving DecidableEq

/-! ### Status and option constants (src/app.py top of file) -/

def STATUS_KEYS : List String :=
  ["to_call", "rnr_1", "rnr_2", "rnr_final", "follow_up",
   "not_interested", "successful_call", "escalated"]

def RNR_STATUSES : List String := ["rnr_1", "rnr_2", "rnr_final"]

def CALL_STATUS_OPTIONS : List String := ["Connected", "Switched OFF", "RNR"]

/-- The options of the `Doctor Sentiment *` radio widget in
`render_status_update_dialog`. -/
def SENTIMENT_OPTIONS : List String := ["Positive", "Neutral", "Negative"]

/-! ### `ensure_workitem_columns` (schema provisioning) -/

/-- The statement `ALTER TABLE work_item ADD COLUMN IF NOT EXISTS is_active
BOOLEAN DEFAULT TRUE` of `ensure_workitem_columns`: when the column is
missing it is added and every existing row receives the default `TRUE`; an
existing column is left untouched. -/
def add_is_active_column (db : DB) : DB :=
  if db.hasIsActiveColumn then db
  else { db with
          hasIsActiveColumn := true,
          work_item := db.work_item.map (fun r => { r with is_active := true }) }

/-- The statement `ALTER TABLE work_item ADD COLUMN IF NOT EXISTS created_at
TIMESTAMPTZ DEFAULT NOW()` of `ensure_workitem_columns`. -/
def add_created_at_column (db : DB) (now : Nat) : DB :=
  if db.hasCreatedAtColumn then db
  else { db with
          hasCreatedAtColumn := true,
          work_item := db.work_item.map (fun r => { r with created_at := now }) }

/-- The statement `ALTER TABLE work_item ADD COLUMN IF NOT EXISTS refreshed_at
TIMESTAMPTZ` (no default: existing rows get NULL) of
`ensure_workitem_columns`. -/
def add_refreshed_at_column (db : DB) : DB :=
  if db.hasRefreshedAtColumn then db
  else { db with
          hasRefreshedAtColumn := true,
          work_item := db.work_item.map (fun r => { r with refreshed_at := none }) }

/-- Translation of `ensure_workitem_columns` (src/app.py): the three
`ALTER TABLE ... ADD COLUMN IF NOT EXISTS` statements, in program order. -/
def ensure_workitem_columns (db : DB) (now : Nat) : DB :=
  add_refreshed_at_column (add_created_at_column (add_is_active_column db) now)

/-! ### `reset_work_items_for_agent` -/

/-- The WHERE clause of the UPDATE in `reset_work_items_for_agent`:
`is_active = TRUE AND partner_id IN (SELECT partner_id FROM partner_agent_map
WHERE agent_id = :agent_id)`. -/
def reset_targeted (db : DB) (agent_id : Nat) (r : WorkItemRow) : Bool :=
  r.is_active &&
    db.partner_agent_map.any (fun pr => pr.1 == r.partner_id && pr.2 == agent_id)

/-- Translation of `reset_work_items_for_agent` (src/app.py): one UPDATE
setting `status = 'to_call'`, `refreshed_at = NOW()`, `updated_at = NOW()` on
every targeted row, committed, returning the statement's rowcount. -/
def reset_work_items_for_agent (db : DB) (agent_id : Nat) (now : Nat) : DB × Nat :=
  let items := db.work_item.map (fun r =>
    if reset_targeted db agent_id r then
      { r with status := "to_call", refreshed_at := some now, updated_at := now }
    else r)
  ({ db with work_item := items },
   (db.work_item.filter (reset_targeted db agent_id)).length)

/-! ### `persist_status_change` and `update_work_item_status` -/

/-- The session payload assembled by `on_status_change` and completed by the
feedback dialog before being handed to `persist_status_change`. -/
structure StatusPayload where
  work_item_id : Nat
  partner_id : Nat
  external_partner_id : Option String
  partner_name : Option String
  agent_id : Nat
  agent_name : Option String
  status : String
  call_status : Option String
  doctor_sentiment : Option String
  primary_concern : Option String
  next_suggested_action : Option String
  follow_up_date : Option CDate
deriving DecidableEq

/-- The activity-log row the INSERT of `persist_status_change` writes
(`created_at` takes its `DEFAULT NOW()`). -/
def mkActivityLogRow (p : StatusPayload) (now : Nat) : ActivityLogRow :=
  { work_item_id := p.work_item_id
    partner_id := p.partner_id
    external_partner_id := p.external_partner_id
    partner_name := p.partner_name
    agent_id := p.agent_id
    agent_name := p.agent_name
    status := p.status
    doctor_sentiment := p.doctor_sentiment
    primary_concern := p.primary_concern
    next_suggested_action := p.next_suggested_action
    call_status := p.call_status
    follow_up_date := p.follow_up_date
    created_at := now }

/-- The work-item list after the UPDATE statement of `persist_status_change`
(`SET status = :status, updated_at = NOW() WHERE id = :work_item_id`). -/
def persist_updated_items (db : DB) (p : StatusPayload) (now : Nat) : List WorkItemRow :=
  db.work_item.map (fun r =>
    if r.id = p.work_item_id then { r with status := p.status, updated_at := now } else r)

/-- Translation of `persist_status_change` (src/app.py): within one connection,
execute the work-item UPDATE, then the activity-log INSERT, then a single
`conn.commit()`. `failUpdate` / `failInsert` model the corresponding statement
raising before the commit: the connection closes without committing, so the
store rolls back to its prior state. Note the function performs no rowcount
check: the UPDATE matching zero rows does not prevent the INSERT or the
commit. -/
def persist_status_change (db : DB) (p : StatusPayload) (now : Nat)
    (failUpdate failInsert : Bool) : DB :=
  if failUpdate then db
  else if failInsert then db
  else
    { db with
        work_item := persist_updated_items db p now,
        work_item_activity_log :=
          db.work_item_activity_log ++ [mkActivityLogRow p now] }

/-- Translation of `update_work_item_status` (src/app.py): the same UPDATE,
committed, followed by a rowcount check that surfaces a not-found error
(`st.error` + `st.stop`) when no row matched. This helper is defined in
src/app.py but is never called by the commit path, which uses
`persist_status_change`. -/
def update_work_item_status (db : DB) (work_item_id : Nat) (new_status : String)
    (now : Nat) : Except String DB :=
  let db1 := { db with
    work_item := db.work_item.map (fun r =>
      if r.id = work_item_id then { r with status := new_status, updated_at := now } else r) }
  if db.work_item.countP (fun r => r.id == work_item_id) = 0 then
    Except.error "not_found"
  else
    Except.ok db1

/-! ### C1: atomicity of the status commit -/

/-- C1: for every commit of a status transition, the work-item status and
`updated_at` update and the insertion of exactly one activity-log entry
carrying the full feedback payload occur atomically in one transaction:
whatever faults the two statements encounter, the resulting store either
equals the original (nothing committed) or carries both the status update and
exactly one appended matching log entry — no committed transition lacks its
log entry. -/
theorem persist_status_change_atomic :
    ∀ (db : DB) (p : StatusPayload) (now : Nat) (failUpdate failInsert : Bool),
      persist_status_change db p now failUpdate failInsert = db ∨
      persist_status_change db p now failUpdate failInsert =
        { db with
            work_item := persist_updated_items db p now,
            work_item_activity_log :=
              db.work_item_activity_log ++ [mkActivityLogRow p now] } := by
  intro db p now f1 f2
  cases f1 <;> cases f2 <;> simp [persist_status_change]

/-! ### C10: the status commit writes nothing but status and updated_at -/

/-- C10: committing a status transition modifies only the `status` and
`updated_at` fields of the targeted work-item row; `is_active`, `created_at`,
`refreshed_at`, `partner_id`, `work_date`, `reason_to_work` and the row
identity are unchanged, every other work-item row is unchanged, and the
partner / mapping / metrics tables and schema flags are untouched. -/
theorem persist_status_change_frame :
    ∀ (db : DB) (p : StatusPayload) (now : Nat) (failUpdate failInsert : Bool),
      (persist_status_change db p now failUpdate failInsert).partner = db.partner ∧
      (persist_status_change db p now failUpdate failInsert).partner_agent_map
        = db.partner_agent_map ∧
      (persist_status_change db p now failUpdate failInsert).partner_monthly_metrics
        = db.partner_monthly_metrics ∧
      (persist_status_change db p now failUpdate failInsert).hasIsActiveColumn
        = db.hasIsActiveColumn ∧
      (persist_status_change db p now failUpdate failInsert).hasCreatedAtColumn
        = db.hasCreatedAtColumn ∧
      (persist_status_change db p now failUpdate failInsert).hasRefreshedAtColumn
        = db.hasRefreshedAtColumn ∧
      (persist_status_change db p now failUpdate failInsert).work_item.length
        = db.work_item.length ∧
      ∀ (i : Nat) (h : i < db.work_item.length)
        (h2 : i < (persist_status_change db p now failUpdate failInsert).work_item.length),
        ((persist_status_change db p now failUpdate failInsert).work_item.get ⟨i, h2⟩).id
          = (db.work_item.get ⟨i, h⟩).id ∧
        ((persist_status_change db p now failUpdate failInsert).work_item.get ⟨i, h2⟩).partner_id
          = (db.work_item.get ⟨i, h⟩).partner_id ∧
        ((persist_status_change db p now failUpdate failInsert).work_item.get ⟨i, h2⟩).work_date
          = (db.work_item.get ⟨i, h⟩).work_date ∧
        ((persist_status_change db p now failUpdate failInsert).work_item.get ⟨i, h2⟩).reason_to_work
          = (db.work_item.get ⟨i, h⟩).reason_to_work ∧
        ((persist_status_change db p now failUpdate failInsert).work_item.get ⟨i, h2⟩).is_active
          = (db.work_item.get ⟨i, h⟩).is_active ∧
        ((persist_status_change db p now failUpdate failInsert).work_item.get ⟨i, h2⟩).created_at
          = (db.work_item.get ⟨i, h⟩).created_at ∧
        ((persist_status_change db p now failUpdate failInsert).work_item.get ⟨i, h2⟩).refreshed_at
          = (db.work_item.get ⟨i, h⟩).refreshed_at ∧
        ((db.work_item.get ⟨i, h⟩).id ≠ p.work_item_id →
          (persist_status_change db p now failUpdate failInsert).work_item.get ⟨i, h2⟩
            = db.work_item.get ⟨i, h⟩) := by
  intro db p now f1 f2
  cases f1 with
  | true =>
    exact ⟨rfl, rfl, rfl, rfl, rfl, rfl, rfl,
      fun i h h2 => ⟨rfl, rfl, rfl, rfl, rfl, rfl, rfl, fun _ => rfl⟩⟩
  | false =>
    cases f2 with
    | true =>
      exact ⟨rfl, rfl, rfl, rfl, rfl, rfl, rfl,
        fun i h h2 => ⟨rfl, rfl, rfl, rfl, rfl, rfl, rfl, fun _ => rfl⟩⟩
    | false =>
      refine ⟨rfl, rfl, rfl, rfl, rfl, rfl, ?_, ?_⟩
      · simp [persist_status_change, persist_updated_items]
      · intro i h h2
        have hrow : (persist_status_change db p now false false).work_item.get ⟨i, h2⟩
            = (if (db.work_item.get ⟨i, h⟩).id = p.work_item_id then
                { db.work_item.get ⟨i, h⟩ with status := p.status, updated_at := now }
              else db.work_item.get ⟨i, h⟩) := by
          simp [persist_status_change, persist_updated_items, List.get_eq_getElem]
        by_cases hid : (db.work_item.get ⟨i, h⟩).id = p.work_item_id
        · rw [hrow, if_pos hid]
          exact ⟨rfl, rfl, rfl, rfl, rfl, rfl, rfl, fun hne => absurd hid hne⟩
        · rw [hrow, if_neg hid]
          exact ⟨rfl, rfl, rfl, rfl, rfl, rfl, rfl, fun _ => rfl⟩

/-- A one-row store and payload used to witness the frame theorems. -/
def frameDb : DB :=
  { hasIsActiveColumn := true
    hasCreatedAtColumn := true
    hasRefreshedAtColumn := true
    work_item := [{ id := 1, partner_id := 4, work_date := none, status := "to_call",
                    reason_to_work := none, is_active := true, created_at := 3,
                    refreshed_at := none, updated_at := 3 }]
    partner := []
    partner_agent_map := [(4, 9)]
    partner_monthly_metrics := []
    work_item_activity_log := [] }

def framePayload : StatusPayload :=
  { work_item_id := 1
    partner_id := 4
    external_partner_id := some "P4"
    partner_name := some "Alpha Clinic"
    agent_id := 9
    agent_name := some "Agent"
    status := "successful_call"
    call_status := some "Connected"
    doctor_sentiment := some "Positive"
    primary_concern := some "pricing"
    next_suggested_action := some "call back"
    follow_up_date := none }

/-- Witness for C10: the frame theorem instantiated on a concrete one-row
store, reading back the untouched `is_active` field of the updated row. -/
theorem persist_status_change_frame_witness :
    0 < frameDb.work_item.length ∧
    ((persist_status_change frameDb framePayload 7 false false).work_item.get
        ⟨0, by decide⟩).is_active
      = (frameDb.work_item.get ⟨0, by decide⟩).is_active := by
  refine ⟨by decide, ?_⟩
  exact ((persist_status_change_frame frameDb framePayload 7 false false).2.2.2.2.2.2.2
    0 (by decide) (by decide)).2.2.2.2.1

/-! ### C5: behaviour when the target work item has vanished -/

/-- A store whose `work_item` table holds no row at all: every commit target
has vanished. -/
def staleDb : DB :=
  { hasIsActiveColumn := true
    hasCreatedAtColumn := true
    hasRefreshedAtColumn := true
    work_item := []
    partner := []
    partner_agent_map := []
    partner_monthly_metrics := []
    work_item_activity_log := [] }

/-- C5 (evaluation at the failing input): when the target work item no longer
exists, the commit path `persist_status_change` performs no rowcount check:
the UPDATE matches nothing, yet the activity-log INSERT still commits and no
failure is surfaced — the claimed not-found condition is raised only by the
helper `update_work_item_status`, which the commit path never calls. -/
theorem persist_status_change_missing_item :
    (persist_status_change staleDb framePayload 11 false false).work_item = [] ∧
    (persist_status_change staleDb framePayload 11 false false).work_item_activity_log
      = [mkActivityLogRow framePayload 11] ∧
    update_work_item_status staleDb 1 "successful_call" 11 = Except.error "not_found" := by
  exact ⟨rfl, rfl, rfl⟩

/-! ### C7: the manual reset and what it leaves untouched -/

/-- C7: `reset_work_items_for_agent` sets `status` to the initial state
`to_call` and stamps `refreshed_at` (and `updated_at`) on exactly the active
work items of the agent's mapped partners, returns the number of rows the
UPDATE matched, and changes nothing else: row identity, `partner_id`,
`work_date`, `reason_to_work`, `is_active` and `created_at` are untouched,
rows that are inactive or belong to unmapped partners are returned verbatim,
and the partner / mapping / metrics / activity-log tables are unchanged. -/
theorem reset_work_items_for_agent_spec :
    ∀ (db : DB) (agent_id now : Nat),
      (∀ r : WorkItemRow,
        reset_targeted db agent_id r = true ↔
          (r.is_active = true ∧
            ∃ pr ∈ db.partner_agent_map, pr.1 = r.partner_id ∧ pr.2 = agent_id)) ∧
      (reset_work_items_for_agent db agent_id now).2
        = (db.work_item.filter (reset_targeted db agent_id)).length ∧
      (reset_work_items_for_agent db agent_id now).1.partner = db.partner ∧
      (reset_work_items_for_agent db agent_id now).1.partner_agent_map
        = db.partner_agent_map ∧
      (reset_work_items_for_agent db agent_id now).1.partner_monthly_metrics
        = db.partner_monthly_metrics ∧
      (reset_work_items_for_agent db agent_id now).1.work_item_activity_log
        = db.work_item_activity_log ∧
      (reset_work_items_for_agent db agent_id now).1.hasIsActiveColumn
        = db.hasIsActiveColumn ∧
      (reset_work_items_for_agent db agent_id now).1.work_item.length
        = db.work_item.length ∧
      ∀ (i : Nat) (h : i < db.work_item.length)
        (h2 : i < (reset_work_items_for_agent db agent_id now).1.work_item.length),
        ((reset_work_items_for_agent db agent_id now).1.work_item.get ⟨i, h2⟩).id
          = (db.work_item.get ⟨i, h⟩).id ∧
        ((reset_work_items_for_agent db agent_id now).1.work_item.get ⟨i, h2⟩).partner_id
          = (db.work_item.get ⟨i, h⟩).partner_id ∧
        ((reset_work_items_for_agent db agent_id now).1.work_item.get ⟨i, h2⟩).work_date
          = (db.work_item.get ⟨i, h⟩).work_date ∧
        ((reset_work_items_for_agent db agent_id now).1.work_item.get ⟨i, h2⟩).reason_to_work
          = (db.work_item.get ⟨i, h⟩).reason_to_work ∧
        ((reset_work_items_for_agent db agent_id now).1.work_item.get ⟨i, h2⟩).is_active
          = (db.work_item.get ⟨i, h⟩).is_active ∧
        ((reset_work_items_for_agent db agent_id now).1.work_item.get ⟨i, h2⟩).created_at
          = (db.work_item.get ⟨i, h⟩).created_at ∧
        (reset_targeted db agent_id (db.work_item.get ⟨i, h⟩) = true →
          ((reset_work_items_for_agent db agent_id now).1.work_item.get ⟨i, h2⟩).status
              = "to_call" ∧
            ((reset_work_items_for_agent db agent_id now).1.work_item.get ⟨i, h2⟩).refreshed_at
              = some now ∧
            ((reset_work_items_for_agent db agent_id now).1.work_item.get ⟨i, h2⟩).updated_at
              = now) ∧
        (reset_targeted db agent_id (db.work_item.get ⟨i, h⟩) = false →
          (reset_work_items_for_agent db agent_id now).1.work_item.get ⟨i, h2⟩
            = db.work_item.get ⟨i, h⟩) := by
  intro db agent now
  refine ⟨?_, rfl, rfl, rfl, rfl, rfl, rfl, ?_, ?_⟩
  · intro r
    simp [reset_targeted, List.any_eq_true]
  · simp [reset_work_items_for_agent]
  · intro i h h2
    have hrow : (reset_work_items_for_agent db agent now).1.work_item.get ⟨i, h2⟩
        = (if reset_targeted db agent (db.work_item.get ⟨i, h⟩) then
            { db.work_item.get ⟨i, h⟩ with
                status := "to_call", refreshed_at := some now, updated_at := now }
          else db.work_item.get ⟨i, h⟩) := by
      simp [reset_work_items_for_agent, List.get_eq_getElem]
    by_cases ht : reset_targeted db agent (db.work_item.get ⟨i, h⟩) = true
    · rw [hrow, if_pos ht]
      exact ⟨rfl, rfl, rfl, rfl, rfl, rfl, fun _ => ⟨rfl, rfl, rfl⟩,
        fun hf => Bool.noConfusion (ht ▸ hf : true = false)⟩
    · rw [hrow, if_neg ht]
      exact ⟨rfl, rfl, rfl, rfl, rfl, rfl, fun htr => absurd htr ht, fun _ => rfl⟩

/-- Witness for C7: the reset theorem instantiated on a concrete one-row
store: the targeted row comes back with status `to_call` and `refreshed_at`
stamped. -/
theorem reset_work_items_for_agent_spec_witness :
    0 < frameDb.work_item.length ∧
    reset_targeted frameDb 9 (frameDb.work_item.get ⟨0, by decide⟩) = true ∧
    ((reset_work_items_for_agent frameDb 9 21).1.work_item.get ⟨0, by decide⟩).status
      = "to_call" := by
  refine ⟨by decide, by decide, ?_⟩
  exact (((reset_work_items_for_agent_spec frameDb 9 21).2.2.2.2.2.2.2.2
    0 (by decide) (by decide)).2.2.2.2.2.2.1 (by decide)).1

/-! ### C2: the at-most-one-active-item-per-partner invariant -/

/-- Number of work-item rows of partner `pid` with `is_active = TRUE`. -/
def activeItemCount (db : DB) (pid : Nat) : Nat :=
  (db.work_item.filter (fun r => r.is_active && r.partner_id == pid)).length

/-- The core invariant of the spec: once the `is_active` column exists, at
most one work-item row per partner is active. (While the column is absent
from the schema no row carries an `is_active` value, so the condition is
vacuous.) -/
def singleActiveInvariant (db : DB) : Prop :=
  db.hasIsActiveColumn = true → ∀ pid : Nat, activeItemCount db pid ≤ 1

/-- A store whose `work_item` table predates the `is_active` column and holds
two rows for partner 1. -/
def preColumnDb : DB :=
  { hasIsActiveColumn := false
    hasCreatedAtColumn := true
    hasRefreshedAtColumn := true
    work_item :=
      [{ id := 1, partner_id := 1, work_date := none, status := "to_call",
         reason_to_work := none, is_active := false, created_at := 0,
         refreshed_at := none, updated_at := 0 },
       { id := 2, partner_id := 1, work_date := none, status := "to_call",
         reason_to_work := none, is_active := false, created_at := 0,
         refreshed_at := none, updated_at := 0 }]
    partner := []
    partner_agent_map := []
    partner_monthly_metrics := []
    work_item_activity_log := [] }

/-- Counterexample to C2: column provisioning does not preserve the
at-most-one-active invariant. `ensure_workitem_columns` adds `is_active` with
`DEFAULT TRUE`, so on a store where the column was missing and partner 1 had
two work-item rows, both rows come out active. -/
theorem ensure_workitem_columns_breaks_single_active :
    singleActiveInvariant preColumnDb ∧
    ¬ singleActiveInvariant (ensure_workitem_columns preColumnDb 5) := by
  constructor
  · intro hcol
    exact absurd hcol (by decide)
  · intro hinv
    have h2 := hinv (by decide) 1
    have : activeItemCount (ensure_workitem_columns preColumnDb 5) 1 = 2 := by decide
    omega

/-- Map over the work-item rows that touches neither `is_active` nor
`partner_id` leaves every partner's active-row count unchanged. -/
theorem activeItemCount_map_eq (l : List WorkItemRow) (f : WorkItemRow → WorkItemRow)
    (hf : ∀ r, (f r).is_active = r.is_active ∧ (f r).partner_id = r.partner_id)
    (pid : Nat) :
    ((l.map f).filter (fun r => r.is_active && r.partner_id == pid)).length
      = (l.filter (fun r => r.is_active && r.partner_id == pid)).length := by
  rw [List.filter_map, List.length_map]
  congr 1
  apply List.filter_congr
  intro r _
  simp [Function.comp, (hf r).1, (hf r).2]

/-- Adding the `created_at` column changes no partner's active-row count. -/
theorem activeItemCount_add_created_at (db : DB) (now pid : Nat) :
    activeItemCount (add_created_at_column db now) pid = activeItemCount db pid := by
  unfold add_created_at_column
  split
  · rfl
  · exact activeItemCount_map_eq db.work_item
      (fun r => { r with created_at := now }) (fun r => ⟨rfl, rfl⟩) pid

/-- Adding the `refreshed_at` column changes no partner's active-row count. -/
theorem activeItemCount_add_refreshed_at (db : DB) (pid : Nat) :
    activeItemCount (add_refreshed_at_column db) pid = activeItemCount db pid := by
  unfold add_refreshed_at_column
  split
  · rfl
  · exact activeItemCount_map_eq db.work_item
      (fun r => { r with refreshed_at := none }) (fun r => ⟨rfl, rfl⟩) pid

/-- C2 amended: the at-most-one-active invariant is preserved by the manual
reset and by the status commit (neither ever writes `is_active` or
`partner_id`), and by column provisioning whenever the `is_active` column
already exists; the unguarded preservation claimed for column provisioning
fails (see the counterexample). -/
theorem single_active_invariant_preserved :
    ∀ (db : DB) (agent_id now : Nat) (p : StatusPayload) (ts : Nat)
      (failUpdate failInsert : Bool),
      singleActiveInvariant db →
      singleActiveInvariant (reset_work_items_for_agent db agent_id now).1 ∧
      singleActiveInvariant (persist_status_change db p ts failUpdate failInsert) ∧
      (db.hasIsActiveColumn = true →
        singleActiveInvariant (ensure_workitem_columns db now)) := by
  intro db agent now p ts f1 f2 hinv
  refine ⟨?_, ?_, ?_⟩
  · intro hcol pid
    have hc : db.hasIsActiveColumn = true := hcol
    have := hinv hc pid
    have heq : activeItemCount (reset_work_items_for_agent db agent now).1 pid
        = activeItemCount db pid := by
      unfold activeItemCount reset_work_items_for_agent
      apply activeItemCount_map_eq
      intro r
      by_cases ht : reset_targeted db agent r = true
      · simp [ht]
      · simp [ht]
    omega
  · intro hcol pid
    cases f1 with
    | true => exact hinv hcol pid
    | false =>
      cases f2 with
      | true => exact hinv hcol pid
      | false =>
        have hc : db.hasIsActiveColumn = true := hcol
        have := hinv hc pid
        have heq : activeItemCount (persist_status_change db p ts false false) pid
            = activeItemCount db pid := by
          unfold activeItemCount persist_status_change persist_updated_items
          simp only [Bool.false_eq_true, if_false]
          apply activeItemCount_map_eq
          intro r
          by_cases hid : r.id = p.work_item_id
          · simp [hid]
          · simp [hid]
        omega
  · intro hcol hcol2 pid
    have e1 : add_is_active_column db = db := by
      unfold add_is_active_column
      rw [if_pos hcol]
    have heq : activeItemCount (ensure_workitem_columns db now) pid
        = activeItemCount db pid := by
      unfold ensure_workitem_columns
      rw [e1, activeItemCount_add_refreshed_at, activeItemCount_add_created_at]
    have := hinv hcol pid
    omega

/-- Witness for the amended C2 theorem, on a concrete store satisfying the
invariant. -/
theorem single_active_invariant_preserved_witness :
    singleActiveInvariant frameDb ∧
    singleActiveInvariant (reset_work_items_for_agent frameDb 9 21).1 := by
  have hinv : singleActiveInvariant frameDb := by
    intro _ pid
    simp [activeItemCount, frameDb, List.filter]
    by_cases h : (4 == pid) = true
    · simp [h]
    · simp [h]
  exact ⟨hinv, (single_active_invariant_preserved frameDb 9 21 framePayload 3 false false hinv).1⟩

/-! ### C4: the feedback gate of `render_status_update_dialog` -/

/-- Python `str.strip()`: remove leading and trailing whitespace. Implemented
structurally over the character list so that it evaluates by kernel
reduction. -/
def pyStrip (s : String) : String :=
  ⟨((s.data.dropWhile Char.isWhitespace).reverse.dropWhile Char.isWhitespace).reverse⟩

/-- The feedback fields collected by the widgets of
`render_status_update_dialog`: `call_status` comes from a selectbox over
`CALL_STATUS_OPTIONS`, `doctor_sentiment` from a radio over
`SENTIMENT_OPTIONS`, the two texts from free text areas, and
`follow_up_date` from an optional date input shown only for `follow_up`. -/
structure FeedbackForm where
  call_status : String
  doctor_sentiment : String
  primary_concern : String
  next_suggested_action : String
  follow_up_date : Option CDate
deriving DecidableEq

/-- The `is_valid` expression of `render_status_update_dialog` (src/app.py):
`all([call_status, sentiment, concern and concern.strip(), next_action and
next_action.strip(), (follow_up_date if is_follow_up else True)])`. Python
truthiness of a string is non-emptiness; of a date, being non-None. -/
def feedback_is_valid (newStatus : String) (f : FeedbackForm) : Bool :=
  !f.call_status.isEmpty &&
  !f.doctor_sentiment.isEmpty &&
  (!f.primary_concern.isEmpty && !(pyStrip f.primary_concern).isEmpty) &&
  (!f.next_suggested_action.isEmpty && !(pyStrip f.next_suggested_action).isEmpty) &&
  (if newStatus == "follow_up" then f.follow_up_date.isSome else true)

/-- The Save path of `render_status_update_dialog`: the Save button is
disabled unless `is_valid`, so `_save` (and through it
`persist_status_change`, on the payload completed with the feedback fields)
runs only on a valid form; otherwise the store is untouched (`none`). -/
def render_status_update_dialog_save (db : DB) (pay : StatusPayload)
    (f : FeedbackForm) (now : Nat) : Option DB :=
  if feedback_is_valid pay.status f then
    some (persist_status_change db
      { pay with
          call_status := some f.call_status,
          doctor_sentiment := some f.doctor_sentiment,
          primary_concern := some f.primary_concern,
          next_suggested_action := some f.next_suggested_action,
          follow_up_date := f.follow_up_date } now false false)
  else none

/-- Python string truthiness: a string is truthy iff non-empty. -/
theorem truthy_str_iff (s : String) : (!s.isEmpty) = true ↔ s ≠ "" := by
  constructor
  · intro h he
    have hse : s.isEmpty = true := (String.isEmpty_iff s).mpr he
    rw [hse] at h
    exact Bool.noConfusion h
  · intro h
    cases hh : s.isEmpty
    · rfl
    · exact absurd ((String.isEmpty_iff s).mp hh) h

/-- A string whose stripped form is non-empty is itself non-empty. -/
theorem ne_empty_of_strip_ne_empty (s : String) (h : pyStrip s ≠ "") : s ≠ "" := by
  intro he
  apply h
  rw [he]
  rfl

/-- The follow-up clause of `is_valid`: the date is required exactly when the
target status is `follow_up`. -/
theorem follow_up_gate_iff (ns : String) (d : Option CDate) :
    (if ns == "follow_up" then d.isSome else true) = true ↔
      (ns = "follow_up" → d.isSome = true) := by
  by_cases h : ns = "follow_up"
  · have hb : (ns == "follow_up") = true := beq_iff_eq.mpr h
    rw [if_pos hb]
    exact ⟨fun hd _ => hd, fun hi => hi h⟩
  · have hb : (ns == "follow_up") = false := by
      cases hh : ns == "follow_up"
      · rfl
      · exact absurd (beq_iff_eq.mp hh) h
    simp only [hb, Bool.false_eq_true, if_false]
    exact ⟨fun _ hcontra => absurd hcontra h, fun _ => trivial⟩

/-- Characterization of the `is_valid` gate of the dialog. -/
theorem feedback_is_valid_iff (newStatus : String) (f : FeedbackForm) :
    feedback_is_valid newStatus f = true ↔
      (f.call_status ≠ "" ∧ f.doctor_sentiment ≠ "" ∧
       pyStrip f.primary_concern ≠ "" ∧ pyStrip f.next_suggested_action ≠ "" ∧
       (newStatus = "follow_up" → f.follow_up_date.isSome = true)) := by
  unfold feedback_is_valid
  simp only [Bool.and_eq_true, truthy_str_iff, follow_up_gate_iff]
  constructor
  · intro h
    obtain ⟨⟨⟨⟨hc, hs⟩, hp1, hp2⟩, hn1, hn2⟩, hg⟩ := h
    exact ⟨hc, hs, hp2, hn2, hg⟩
  · intro h
    obtain ⟨hc, hs, hp, hn, hg⟩ := h
    exact ⟨⟨⟨⟨hc, hs⟩, ne_empty_of_strip_ne_empty _ hp, hp⟩,
      ne_empty_of_strip_ne_empty _ hn, hn⟩, hg⟩

/-- C4: a transition commit is accepted exactly when the call outcome is one
of `CALL_STATUS_OPTIONS`, the sentiment one of `SENTIMENT_OPTIONS`, the
primary-concern and next-suggested-action texts are non-empty after trimming,
and — exactly when the target status is `follow_up` — a follow-up date is
present; the widget selections (`ci`, `si` index the option lists) make the
outcome/sentiment memberships automatic, and a rejected commit produces no
store effect (`none`: the Save callback never runs). -/
theorem render_status_update_dialog_gate :
    ∀ (db : DB) (pay : StatusPayload) (now ci si : Nat)
      (concern next_action : String) (fud : Option CDate),
      ci < CALL_STATUS_OPTIONS.length →
      si < SENTIMENT_OPTIONS.length →
      ((render_status_update_dialog_save db pay
          { call_status := CALL_STATUS_OPTIONS.getD ci "",
            doctor_sentiment := SENTIMENT_OPTIONS.getD si "",
            primary_concern := concern,
            next_suggested_action := next_action,
            follow_up_date := fud } now).isSome = true ↔
        (CALL_STATUS_OPTIONS.getD ci "" ∈ CALL_STATUS_OPTIONS ∧
         SENTIMENT_OPTIONS.getD si "" ∈ SENTIMENT_OPTIONS ∧
         pyStrip concern ≠ "" ∧
         pyStrip next_action ≠ "" ∧
         (pay.status = "follow_up" → fud.isSome = true))) := by
  intro db pay now ci si concern next_action fud hci hsi
  have hsave : ∀ (g : FeedbackForm),
      (render_status_update_dialog_save db pay g now).isSome
        = feedback_is_valid pay.status g := by
    intro g
    unfold render_status_update_dialog_save
    split
    · next hv => rw [hv]; rfl
    · next hv =>
        have hfv : feedback_is_valid pay.status g = false := by
          cases hh : feedback_is_valid pay.status g
          · rfl
          · exact absurd hh hv
        rw [hfv]
        rfl
  rw [hsave, feedback_is_valid_iff]
  have hci3 : ci < 3 := by simpa [CALL_STATUS_OPTIONS] using hci
  have hsi3 : si < 3 := by simpa [SENTIMENT_OPTIONS] using hsi
  interval_cases ci <;> interval_cases si <;>
    simp [CALL_STATUS_OPTIONS, SENTIMENT_OPTIONS]

/-- Witness for C4 at a concrete valid form: outcome `Connected`, sentiment
`Positive`, non-blank texts, no follow-up date, target `successful_call`. -/
theorem render_status_update_dialog_gate_witness :
    0 < CALL_STATUS_OPTIONS.length ∧ 0 < SENTIMENT_OPTIONS.length ∧
    ((render_status_update_dialog_save staleDb framePayload
        { call_status := CALL_STATUS_OPTIONS.getD 0 "",
          doctor_sentiment := SENTIMENT_OPTIONS.getD 0 "",
          primary_concern := "pricing",
          next_suggested_action := "call back",
          follow_up_date := none } 3).isSome = true ↔
      (CALL_STATUS_OPTIONS.getD 0 "" ∈ CALL_STATUS_OPTIONS ∧
       SENTIMENT_OPTIONS.getD 0 "" ∈ SENTIMENT_OPTIONS ∧
       pyStrip "pricing" ≠ "" ∧
       pyStrip "call back" ≠ "" ∧
       (framePayload.status = "follow_up" → (none : Option CDate).isSome = true))) :=
  ⟨by decide, by decide,
    render_status_update_dialog_gate staleDb framePayload 3 0 0 "pricing" "call back" none
      (by decide) (by decide)⟩

/-! ### C6: `ensureCurrentItems` (spec-modelled) -/

/-- Modelled from the spec: src/app.py contains no code that inserts
`work_item` rows (`ensureCurrentItems` of spec §4.2 is missing from the
source; only its collaborators appear). The partners mapped to an agent, with
duplicate mappings collapsed. -/
def agentMappedPartners (db : DB) (agent_id : Nat) : List Nat :=
  ((db.partner_agent_map.filter (fun pr => pr.2 == agent_id)).map Prod.fst).dedup

/-- Modelled from the spec: the partners mapped to the agent that lack any
`work_item` row whatsoever. -/
def missingPartners (db : DB) (agent_id : Nat) : List Nat :=
  (agentMappedPartners db agent_id).filter
    (fun pid => !(db.work_item.any (fun r => r.partner_id == pid)))

/-- Modelled from the spec: the rows `ensureCurrentItems` inserts — one per
missing partner, `status = to_call` (the initial state), `is_active = false`;
`baseId` seeds the fresh row ids. -/
def newCurrentItems (db : DB) (agent_id baseId now : Nat) : List WorkItemRow :=
  (missingPartners db agent_id).enum.map (fun pr =>
    { id := baseId + pr.1, partner_id := pr.2, work_date := none,
      status := "to_call", reason_to_work := none, is_active := false,
      created_at := now, refreshed_at := none, updated_at := now })

/-- Modelled from the spec: `ensureCurrentItems(agentId)` — for every partner
mapped to the agent lacking any `WorkItem` row, insert one with
`status = initial`, `is_active = false`; return the count inserted
(spec §4.2). -/
def ensureCurrentItems (db : DB) (agent_id baseId now : Nat) : DB × Nat :=
  ({ db with work_item := db.work_item ++ newCurrentItems db agent_id baseId now },
   (newCurrentItems db agent_id baseId now).length)

/-- The partner ids of the inserted rows are exactly the missing partners. -/
theorem newCurrentItems_map_partner_id (db : DB) (agent_id baseId now : Nat) :
    (newCurrentItems db agent_id baseId now).map (fun r => r.partner_id)
      = missingPartners db agent_id := by
  unfold newCurrentItems
  rw [List.map_map]
  exact List.enum_map_snd (missingPartners db agent_id)

/-- Membership in the missing-partner list, spelled out. -/
theorem mem_missingPartners_iff (db : DB) (agent_id pid : Nat) :
    pid ∈ missingPartners db agent_id ↔
      ((pid, agent_id) ∈ db.partner_agent_map ∧
        ∀ r ∈ db.work_item, r.partner_id ≠ pid) := by
  unfold missingPartners agentMappedPartners
  rw [List.mem_filter, List.mem_dedup, List.mem_map]
  constructor
  · rintro ⟨⟨pr, hpr, hfst⟩, hany⟩
    rw [List.mem_filter] at hpr
    obtain ⟨hmem, hsnd⟩ := hpr
    have hpr_eq : pr = (pid, agent_id) := by
      have h2 : pr.2 = agent_id := by
        have := hsnd
        rwa [beq_iff_eq] at this
      cases pr
      simp_all
    rw [hpr_eq] at hmem
    refine ⟨hmem, ?_⟩
    intro r hr hre
    have : db.work_item.any (fun r => r.partner_id == pid) = true := by
      rw [List.any_eq_true]
      exact ⟨r, hr, beq_iff_eq.mpr hre⟩
    rw [this] at hany
    exact Bool.noConfusion hany
  · rintro ⟨hmem, hno⟩
    refine ⟨⟨(pid, agent_id), ?_, rfl⟩, ?_⟩
    · rw [List.mem_filter]
      exact ⟨hmem, beq_iff_eq.mpr rfl⟩
    · cases hany : db.work_item.any (fun r => r.partner_id == pid)
      · rfl
      · rw [List.any_eq_true] at hany
        obtain ⟨r, hr, hre⟩ := hany
        exact absurd (beq_iff_eq.mp hre) (hno r hr)

/-- After running `ensureCurrentItems`, no mapped partner is missing. -/
theorem missingPartners_after_ensure (db : DB) (agent_id baseId now : Nat) :
    missingPartners (ensureCurrentItems db agent_id baseId now).1 agent_id = [] := by
  unfold missingPartners
  rw [List.filter_eq_nil_iff]
  intro pid hmem hpb
  rw [Bool.not_eq_true'] at hpb
  have hpb2 : (db.work_item ++ newCurrentItems db agent_id baseId now).any
      (fun r => r.partner_id == pid) = false := hpb
  have hany : (db.work_item ++ newCurrentItems db agent_id baseId now).any
      (fun r => r.partner_id == pid) = true := by
    by_cases hmiss : pid ∈ missingPartners db agent_id
    · rw [List.any_eq_true]
      have hpm : pid ∈ (newCurrentItems db agent_id baseId now).map
          (fun r => r.partner_id) := by
        rw [newCurrentItems_map_partner_id]
        exact hmiss
      rw [List.mem_map] at hpm
      obtain ⟨r, hr, hrp⟩ := hpm
      exact ⟨r, List.mem_append_right _ hr, beq_iff_eq.mpr hrp⟩
    · have hmemdb : pid ∈ agentMappedPartners db agent_id := hmem
      have h2 : ¬ ((!(db.work_item.any (fun r => r.partner_id == pid))) = true) := by
        intro hh
        apply hmiss
        unfold missingPartners
        rw [List.mem_filter]
        exact ⟨hmemdb, hh⟩
      cases hx : db.work_item.any (fun r => r.partner_id == pid)
      · exact absurd (by rw [hx]; rfl) h2
      · rw [List.any_eq_true] at hx
        obtain ⟨r, hr, hrp⟩ := hx
        rw [List.any_eq_true]
        exact ⟨r, List.mem_append_left _ hr, hrp⟩
  exact Bool.noConfusion (hany.symm.trans hpb2)

/-- C6: `ensureCurrentItems(agentId)` appends, for every partner mapped to
the agent that lacks any `WorkItem` row, exactly one row with
`status = to_call` (the initial state) and `is_active = false`, returns the
count inserted, and is idempotent: a second invocation with unchanged
mappings inserts zero rows and leaves the store unchanged. -/
theorem ensureCurrentItems_spec :
    ∀ (db : DB) (agent_id baseId now : Nat),
      ((ensureCurrentItems db agent_id baseId now).1.work_item
          = db.work_item ++ newCurrentItems db agent_id baseId now ∧
        (ensureCurrentItems db agent_id baseId now).2
          = (newCurrentItems db agent_id baseId now).length) ∧
      (∀ r ∈ newCurrentItems db agent_id baseId now,
        r.status = "to_call" ∧ r.is_active = false) ∧
      ((newCurrentItems db agent_id baseId now).map (fun r => r.partner_id)).Nodup ∧
      (∀ pid : Nat,
        pid ∈ (newCurrentItems db agent_id baseId now).map (fun r => r.partner_id) ↔
          ((pid, agent_id) ∈ db.partner_agent_map ∧
            ∀ r ∈ db.work_item, r.partner_id ≠ pid)) ∧
      (ensureCurrentItems (ensureCurrentItems db agent_id baseId now).1 agent_id baseId now).2
        = 0 ∧
      (ensureCurrentItems (ensureCurrentItems db agent_id baseId now).1 agent_id baseId now).1
        = (ensureCurrentItems db agent_id baseId now).1 := by
  intro db agent base now
  have hnil : newCurrentItems (ensureCurrentItems db agent base now).1 agent base now
      = [] := by
    unfold newCurrentItems
    rw [missingPartners_after_ensure]
    rfl
  refine ⟨⟨rfl, rfl⟩, ?_, ?_, ?_, ?_, ?_⟩
  · intro r hr
    unfold newCurrentItems at hr
    rw [List.mem_map] at hr
    obtain ⟨pr, hpr, hre⟩ := hr
    rw [← hre]
    exact ⟨rfl, rfl⟩
  · rw [newCurrentItems_map_partner_id]
    exact (List.nodup_dedup _).filter _
  · intro pid
    rw [newCurrentItems_map_partner_id]
    exact mem_missingPartners_iff db agent pid
  · show (newCurrentItems (ensureCurrentItems db agent base now).1 agent base now).length = 0
    rw [hnil]
    rfl
  · show { (ensureCurrentItems db agent base now).1 with
        work_item := (ensureCurrentItems db agent base now).1.work_item
          ++ newCurrentItems (ensureCurrentItems db agent base now).1 agent base now }
      = (ensureCurrentItems db agent base now).1
    rw [hnil]
    simp

/-! ### Board query: derived signals (`fetch_work_items_for_agent`, base CTE) -/

/-- SQL `COALESCE(x, 0)`. -/
def coalesceInt (x : Option Int) : Int := x.getD 0

/-- The fold step computing `MAX(pm.month_date)`. -/
def maxDateStep (acc : Option CDate) (d : CDate) : Option CDate :=
  match acc with
  | none => some d
  | some m => some (if rataDie m < rataDie d then d else m)

/-- The `lam` lateral subquery of the board CTE:
`SELECT MAX(pm.month_date) FROM partner_monthly_metrics pm WHERE pm.partner_id
= p.id AND COALESCE(pm.orders,0) > 0`. -/
def lastActiveMonth (ms : List MonthlyMetric) (pid : Nat) : Option CDate :=
  ((ms.filter (fun m => m.partner_id == pid && decide (0 < coalesceInt m.orders))).map
    (fun m => m.month_date)).foldl maxDateStep none

/-- The `last_activity_date` column of the board CTE, as a day number:
`COALESCE(p.last_order_date, (lam.last_active_month + interval '1 month - 1
day'))`. -/
def last_activity_day (p : Partner) (ms : List MonthlyMetric) : Option Nat :=
  match p.last_order_date with
  | some d => some (rataDie d)
  | none => (lastActiveMonth ms p.id).map (fun md => rataDie (addOneMonthClamped md) - 1)

/-- The `days_since_last_activity` column of the board CTE:
`CURRENT_DATE - last_activity_date` when the latter is non-null, else NULL. -/
def days_since_last_activity (today : CDate) (p : Partner) (ms : List MonthlyMetric) :
    Option Int :=
  (last_activity_day p ms).map (fun n => (rataDie today : Int) - Int.ofNat n)

/-- The derivation exactly as the spec words it: `today − last_activity_date`,
where `last_activity_date` is the partner's last known order date if present,
else the last calendar day of the most recent month whose metrics row has
`orders > 0`, else null. -/
def specLastActivityDay (p : Partner) (ms : List MonthlyMetric) : Option Nat :=
  match p.last_order_date with
  | some d => some (rataDie d)
  | none =>
    (lastActiveMonth ms p.id).map (fun md =>
      rataDie ⟨md.year, md.month, daysInMonth md.year md.month⟩)

/-- Spec-worded companion of `days_since_last_activity`. -/
def specDaysSince (today : CDate) (p : Partner) (ms : List MonthlyMetric) : Option Int :=
  (specLastActivityDay p ms).map (fun n => (rataDie today : Int) - Int.ofNat n)

/-- Every month has at least one day. -/
theorem daysInMonth_pos (y m : Nat) : 1 ≤ daysInMonth y m := by
  unfold daysInMonth
  split_ifs <;> omega

/-- Cumulative day counts advance by the month length. -/
theorem daysBeforeMonth_succ (y m : Nat) (h1 : 1 ≤ m) (h2 : m ≤ 11) :
    daysBeforeMonth y (m + 1) = daysBeforeMonth y m + daysInMonth y m := by
  interval_cases m <;> cases hL : isLeap y <;>
    simp [daysBeforeMonth, daysInMonth, hL]

set_option maxHeartbeats 2000000 in
/-- Postgres `first_of_month + interval '1 month - 1 day'` lands on the last
calendar day of that month. -/
theorem month_interval_end (y m : Nat) (h1 : 1 ≤ m) (h2 : m ≤ 12) (hy : 1 ≤ y) :
    rataDie (addOneMonthClamped ⟨y, m, 1⟩) - 1
      = rataDie ⟨y, m, daysInMonth y m⟩ := by
  by_cases h12 : m = 12
  · subst h12
    have hstep : addOneMonthClamped ⟨y, 12, 1⟩ = ⟨y + 1, 1, 1⟩ := by
      unfold addOneMonthClamped
      simp [daysInMonth]
    rw [hstep]
    cases hleap : isLeap y with
    | true =>
      have hc : y % 4 = 0 ∧ (y % 100 ≠ 0 ∨ y % 400 = 0) := by
        have hh := hleap
        unfold isLeap at hh
        simp only [Bool.and_eq_true, beq_iff_eq, Bool.or_eq_true, bne_iff_ne] at hh
        exact hh
      simp [rataDie, daysBeforeMonth, daysInMonth, hleap]
      omega
    | false =>
      have hc : ¬ (y % 4 = 0 ∧ (y % 100 ≠ 0 ∨ y % 400 = 0)) := by
        intro hcon
        have ht : isLeap y = true := by
          unfold isLeap
          simp only [Bool.and_eq_true, beq_iff_eq, Bool.or_eq_true, bne_iff_ne]
          exact hcon
        rw [ht] at hleap
        exact Bool.noConfusion hleap
      have d1 : daysBeforeMonth (y + 1) 1 = 0 := rfl
      have d12 : daysBeforeMonth y 12 = 334 + (if isLeap y then 1 else 0) := rfl
      have dim : daysInMonth y 12 = 31 := rfl
      unfold rataDie
      dsimp only
      rw [d1, d12, dim, hleap]
      simp only [Bool.false_eq_true, if_false]
      omega
  · have hstep : addOneMonthClamped ⟨y, m, 1⟩ = ⟨y, m + 1, 1⟩ := by
      unfold addOneMonthClamped
      dsimp only
      rw [if_neg h12, Nat.min_eq_left (daysInMonth_pos y (m + 1))]
    rw [hstep]
    have e1 : rataDie ⟨y, m + 1, 1⟩ = rataDie ⟨y, m, daysInMonth y m⟩ + 1 := by
      unfold rataDie
      dsimp only
      rw [daysBeforeMonth_succ y m h1 (by omega)]
      omega
    rw [e1]
    omega

/-- The result of a `maxDateStep` fold is an element of the list (or was
already the accumulator). -/
theorem foldl_maxDateStep_mem (l : List CDate) (acc : Option CDate) (d : CDate)
    (h : l.foldl maxDateStep acc = some d) : d ∈ l ∨ acc = some d := by
  induction l generalizing acc with
  | nil => exact Or.inr h
  | cons x xs ih =>
    rw [List.foldl_cons] at h
    rcases ih (maxDateStep acc x) h with hmem | hacc
    · exact Or.inl (List.mem_cons_of_mem _ hmem)
    · cases acc with
      | none =>
        have hx : x = d := Option.some.inj hacc
        exact Or.inl (hx ▸ List.mem_cons_self x xs)
      | some m =>
        have hif : (if rataDie m < rataDie x then x else m) = d := Option.some.inj hacc
        by_cases hlt : rataDie m < rataDie x
        · rw [if_pos hlt] at hif
          exact Or.inl (hif ▸ List.mem_cons_self x xs)
        · rw [if_neg hlt] at hif
          exact Or.inr (congrArg some hif)

/-- The most recent active month, when it exists, is the month of some
metrics row. -/
theorem lastActiveMonth_mem (ms : List MonthlyMetric) (pid : Nat) (d : CDate)
    (h : lastActiveMonth ms pid = some d) : ∃ mm ∈ ms, mm.month_date = d := by
  unfold lastActiveMonth at h
  rcases foldl_maxDateStep_mem _ none d h with hmem | hacc
  · rw [List.mem_map] at hmem
    obtain ⟨mm, hmm, he⟩ := hmem
    rw [List.mem_filter] at hmm
    exact ⟨mm, hmm.1, he⟩
  · exact Option.noConfusion hacc

/-! ### Board assembly (`fetch_work_items_for_agent`, outer SELECT) -/

/-- The metrics row joined by `pm0` (current-month metrics), if any: the
`(partner_id, month_date)` pair is the table's conflict key, so at most one
row matches. -/
def metricAt (db : DB) (pid : Nat) (md : CDate) : Option MonthlyMetric :=
  (db.partner_monthly_metrics.filter
    (fun m => m.partner_id == pid && m.month_date == md)).head?

/-- The `lf` lateral subquery: the `follow_up_date` of the most recent
activity-log row of this work item carrying a non-null date
(`ORDER BY created_at DESC LIMIT 1`). -/
def latestFollowUp (db : DB) (wid : Nat) : Option CDate :=
  ((db.work_item_activity_log.filter
      (fun e => e.work_item_id == wid && e.follow_up_date.isSome)).foldl
    (fun acc e =>
      match acc with
      | none => some e
      | some b => some (if b.created_at < e.created_at then e else b)) none).bind
    (fun e => e.follow_up_date)

/-- The `JOIN partner p ON p.id = wi.partner_id`. -/
def lookupPartner (db : DB) (pid : Nat) : Option Partner :=
  (db.partner.filter (fun p => p.id == pid)).head?

/-- One row of the board query's result set. -/
structure BoardRow where
  work_item_id : Nat
  partner_id : Nat
  work_date : Option CDate
  status : String
  is_active : Bool
  created_at : Nat
  refreshed_at : Option Nat
  external_partner_id : String
  partner_name : String
  partner_type_tag : Option String
  orders_m0 : Int
  rev_m0 : Int
  latest_follow_up_date : Option CDate
  days_since_last_activity : Option Int
  priority_bucket_key : String
  priority_bucket_rank : Int
deriving DecidableEq

/-- One joined-and-annotated row of the board query: work-item columns from
`wi`, partner columns from `p`, current-month metrics through
`COALESCE(..., 0)`, the derived `days_since_last_activity`, and the two
priority CASE expressions. -/
def mkBoardRow (today : CDate) (db : DB) (wi : WorkItemRow) (p : Partner) : BoardRow :=
  let orders := coalesceInt ((metricAt db p.id (monthFirst today)).bind (fun m => m.orders))
  let rev := coalesceInt ((metricAt db p.id (monthFirst today)).bind (fun m => m.net_revenue))
  let days := days_since_last_activity today p db.partner_monthly_metrics
  { work_item_id := wi.id
    partner_id := wi.partner_id
    work_date := wi.work_date
    status := wi.status
    is_active := wi.is_active
    created_at := wi.created_at
    refreshed_at := wi.refreshed_at
    external_partner_id := p.external_partner_id
    partner_name := p.partner_name
    partner_type_tag := p.partner_type_tag
    orders_m0 := orders
    rev_m0 := rev
    latest_follow_up_date := latestFollowUp db wi.id
    days_since_last_activity := days
    priority_bucket_key := priority_bucket_key days orders
    priority_bucket_rank := priority_bucket_rank days orders }

/-- The base CTE's row set: active work items whose partner is mapped to the
agent, joined with their partner row. -/
def baseRows (db : DB) (agent_id : Nat) (today : CDate) : List BoardRow :=
  (db.work_item.filter (fun wi =>
      wi.is_active &&
        db.partner_agent_map.any (fun pr => pr.1 == wi.partner_id && pr.2 == agent_id))).filterMap
    (fun wi => (lookupPartner db wi.partner_id).map (fun p => mkBoardRow today db wi p))

/-- C8: `days_since_last_activity` equals `today − last_activity_date`, where
`last_activity_date` is the partner's last known order date if present, else
the last calendar day of the most recent month whose metrics row has
`orders > 0`, else null (and then the result is null); the board row's value
is recomputed from the partner row and metrics history alone — the work item
stores nothing of it. The month hypothesis reflects the upload path, which
normalizes every `month_date` to the first day of a real month
(`month_date.replace(day=1)`). -/
theorem days_since_last_activity_spec :
    ∀ (today : CDate) (p : Partner) (ms : List MonthlyMetric),
      (∀ mm ∈ ms, mm.month_date.day = 1 ∧ 1 ≤ mm.month_date.month ∧
        mm.month_date.month ≤ 12 ∧ 1 ≤ mm.month_date.year) →
      days_since_last_activity today p ms = specDaysSince today p ms ∧
      (∀ d, p.last_order_date = some d →
        days_since_last_activity today p ms = some (dateDiff today d)) ∧
      (p.last_order_date = none → lastActiveMonth ms p.id = none →
        days_since_last_activity today p ms = none) ∧
      (∀ (db : DB) (wi : WorkItemRow),
        (mkBoardRow today db wi p).days_since_last_activity
          = days_since_last_activity today p db.partner_monthly_metrics) := by
  intro today p ms hms
  refine ⟨?_, ?_, ?_, ?_⟩
  · unfold days_since_last_activity specDaysSince last_activity_day specLastActivityDay
    cases hlo : p.last_order_date with
    | some d => rfl
    | none =>
      cases hlam : lastActiveMonth ms p.id with
      | none => rfl
      | some md =>
        obtain ⟨mm, hmm, hmme⟩ := lastActiveMonth_mem ms p.id md hlam
        have hw := hms mm hmm
        rw [hmme] at hw
        obtain ⟨hd1, hm1, hm2, hy⟩ := hw
        have hmd : md = ⟨md.year, md.month, 1⟩ := by
          cases md
          simp_all
        have hkey : rataDie (addOneMonthClamped md) - 1
            = rataDie ⟨md.year, md.month, daysInMonth md.year md.month⟩ := by
          rw [hmd]
          exact month_interval_end md.year md.month hm1 hm2 hy
        show some ((rataDie today : Int)
              - Int.ofNat (rataDie (addOneMonthClamped md) - 1))
            = some ((rataDie today : Int)
              - Int.ofNat (rataDie ⟨md.year, md.month, daysInMonth md.year md.month⟩))
        rw [hkey]
  · intro d hd
    unfold days_since_last_activity last_activity_day
    rw [hd]
    rfl
  · intro hlo hlam
    unfold days_since_last_activity last_activity_day
    rw [hlo, hlam]
    rfl
  · intro db wi
    rfl

/-- A partner and metrics history used to witness the derivation theorem:
no last order date, one positive-orders month (February 2024, a leap year),
observed from 2024-03-10. -/
def c8Partner : Partner :=
  { id := 4, external_partner_id := "P4", partner_name := "Alpha Clinic",
    partner_type_tag := some "Portfolio", city := "Pune",
    partner_type := "In Clinic", handover_status := none, last_order_date := none }

def c8Metrics : List MonthlyMetric :=
  [{ partner_id := 4, month_date := ⟨2024, 2, 1⟩, orders := some 3, net_revenue := some 900 }]

/-- Witness for C8: on the concrete history the derivation theorem applies,
and evaluating the derived value gives `2024-03-10 − 2024-02-29 = 10` days. -/
theorem days_since_last_activity_spec_witness :
    (∀ mm ∈ c8Metrics, mm.month_date.day = 1 ∧ 1 ≤ mm.month_date.month ∧
      mm.month_date.month ≤ 12 ∧ 1 ≤ mm.month_date.year) ∧
    days_since_last_activity ⟨2024, 3, 10⟩ c8Partner c8Metrics
      = specDaysSince ⟨2024, 3, 10⟩ c8Partner c8Metrics ∧
    days_since_last_activity ⟨2024, 3, 10⟩ c8Partner c8Metrics = some 10 := by
  refine ⟨by decide, ?_, by decide⟩
  exact (days_since_last_activity_spec ⟨2024, 3, 10⟩ c8Partner c8Metrics (by decide)).1

/-! ### C9: board ordering -/

/-- Strict "days descending, NULLS LAST" comparison of the ORDER BY chain. -/
def days_desc_ltb : Option Int → Option Int → Bool
  | some a, some b => decide (b < a)
  | some _, none => true
  | none, _ => false

/-- The ORDER BY chain of the board query:
`priority_bucket_rank ASC, rev_m0 DESC, days_since_last_activity DESC NULLS
LAST, partner_name` (non-strict: ties allowed at every level). -/
def boardLeB (a b : BoardRow) : Bool :=
  decide (a.priority_bucket_rank < b.priority_bucket_rank) ||
  (decide (a.priority_bucket_rank = b.priority_bucket_rank) &&
    (decide (b.rev_m0 < a.rev_m0) ||
      (decide (a.rev_m0 = b.rev_m0) &&
        (days_desc_ltb a.days_since_last_activity b.days_since_last_activity ||
          (decide (a.days_since_last_activity = b.days_since_last_activity) &&
            decide (a.partner_name ≤ b.partner_name))))))

/-- The sort key of the ORDER BY chain. -/
def boardKey (r : BoardRow) : Int × Int × Option Int × String :=
  (r.priority_bucket_rank, r.rev_m0, r.days_since_last_activity, r.partner_name)

/-- Translation of the result set of `fetch_work_items_for_agent`: the base
rows ordered by the ORDER BY chain. -/
def fetch_work_items_for_agent (db : DB) (agent_id : Nat) (today : CDate) :
    List BoardRow :=
  (baseRows db agent_id today).mergeSort boardLeB

/-- The comparator, spelled as the lexicographic proposition. -/
theorem boardLeB_iff (a b : BoardRow) :
    boardLeB a b = true ↔
      (a.priority_bucket_rank < b.priority_bucket_rank ∨
        (a.priority_bucket_rank = b.priority_bucket_rank ∧
          (b.rev_m0 < a.rev_m0 ∨
            (a.rev_m0 = b.rev_m0 ∧
              (days_desc_ltb a.days_since_last_activity b.days_since_last_activity
                  = true ∨
                (a.days_since_last_activity = b.days_since_last_activity ∧
                  a.partner_name ≤ b.partner_name)))))) := by
  unfold boardLeB
  simp [Bool.or_eq_true, Bool.and_eq_true, decide_eq_true_eq]

theorem days_desc_ltb_trans (x y z : Option Int)
    (h1 : days_desc_ltb x y = true) (h2 : days_desc_ltb y z = true) :
    days_desc_ltb x z = true := by
  cases x <;> cases y <;> cases z <;> simp_all [days_desc_ltb] <;> omega

theorem days_desc_ltb_tri (x y : Option Int) :
    days_desc_ltb x y = true ∨ x = y ∨ days_desc_ltb y x = true := by
  cases x <;> cases y <;> simp [days_desc_ltb] <;> omega

theorem days_desc_ltb_asymm (x y : Option Int)
    (h1 : days_desc_ltb x y = true) (h2 : days_desc_ltb y x = true) : False := by
  cases x <;> cases y <;> simp_all [days_desc_ltb] <;> omega

/-- The ORDER BY comparator is transitive. -/
theorem boardLeB_trans (a b c : BoardRow) (h1 : boardLeB a b = true)
    (h2 : boardLeB b c = true) : boardLeB a c = true := by
  rw [boardLeB_iff] at h1 h2 ⊢
  rcases h1 with h1 | ⟨e1, h1⟩
  · rcases h2 with h2 | ⟨e2, h2⟩
    · exact Or.inl (by omega)
    · exact Or.inl (by omega)
  · rcases h2 with h2 | ⟨e2, h2⟩
    · exact Or.inl (by omega)
    · refine Or.inr ⟨by omega, ?_⟩
      rcases h1 with h1 | ⟨f1, h1⟩
      · rcases h2 with h2 | ⟨f2, h2⟩
        · exact Or.inl (by omega)
        · exact Or.inl (by omega)
      · rcases h2 with h2 | ⟨f2, h2⟩
        · exact Or.inl (by omega)
        · refine Or.inr ⟨by omega, ?_⟩
          rcases h1 with h1 | ⟨g1, h1⟩
          · rcases h2 with h2 | ⟨g2, h2⟩
            · exact Or.inl (days_desc_ltb_trans _ _ _ h1 h2)
            · exact Or.inl (by rw [← g2]; exact h1)
          · rcases h2 with h2 | ⟨g2, h2⟩
            · exact Or.inl (by rw [g1]; exact h2)
            · exact Or.inr ⟨g1.trans g2, le_trans h1 h2⟩

/-- The ORDER BY comparator is total. -/
theorem boardLeB_total (a b : BoardRow) : (boardLeB a b || boardLeB b a) = true := by
  rw [Bool.or_eq_true, boardLeB_iff, boardLeB_iff]
  rcases lt_trichotomy a.priority_bucket_rank b.priority_bucket_rank with h | h | h
  · exact Or.inl (Or.inl h)
  · rcases lt_trichotomy a.rev_m0 b.rev_m0 with h2 | h2 | h2
    · exact Or.inr (Or.inr ⟨h.symm, Or.inl h2⟩)
    · rcases days_desc_ltb_tri a.days_since_last_activity b.days_since_last_activity
        with hd | hd | hd
      · exact Or.inl (Or.inr ⟨h, Or.inr ⟨h2, Or.inl hd⟩⟩)
      · rcases le_total a.partner_name b.partner_name with hn | hn
        · exact Or.inl (Or.inr ⟨h, Or.inr ⟨h2, Or.inr ⟨hd, hn⟩⟩⟩)
        · exact Or.inr (Or.inr ⟨h.symm, Or.inr ⟨h2.symm, Or.inr ⟨hd.symm, hn⟩⟩⟩)
      · exact Or.inr (Or.inr ⟨h.symm, Or.inr ⟨h2.symm, Or.inl hd⟩⟩)
    · exact Or.inl (Or.inr ⟨h, Or.inl h2⟩)
  · exact Or.inr (Or.inl h)

/-- Mutually related rows agree on the whole sort key. -/
theorem boardLeB_antisymm_key (a b : BoardRow) (h1 : boardLeB a b = true)
    (h2 : boardLeB b a = true) : boardKey a = boardKey b := by
  rw [boardLeB_iff] at h1 h2
  unfold boardKey
  rcases h1 with h1 | ⟨e1, h1⟩
  · rcases h2 with h2 | ⟨e2, h2⟩
    · exact absurd h1 (by omega)
    · exact absurd h1 (by omega)
  · rcases h2 with h2 | ⟨e2, h2⟩
    · exact absurd h2 (by omega)
    · rcases h1 with h1 | ⟨f1, h1⟩
      · rcases h2 with h2 | ⟨f2, h2⟩
        · exact absurd h1 (by omega)
        · exact absurd h1 (by omega)
      · rcases h2 with h2 | ⟨f2, h2⟩
        · exact absurd h2 (by omega)
        · rcases h1 with h1 | ⟨g1, h1⟩
          · rcases h2 with h2 | ⟨g2, h2⟩
            · exact (days_desc_ltb_asymm _ _ h1 h2).elim
            · rw [g2] at h1
              exact (days_desc_ltb_asymm _ _ h1 h1).elim
          · rcases h2 with h2 | ⟨g2, h2⟩
            · rw [← g1] at h2
              exact (days_desc_ltb_asymm _ _ h2 h2).elim
            · rw [e1, f1, g1, le_antisymm h1 h2]

/-- Two sorted lists that are permutations of each other and whose elements
are pairwise antisymmetric are equal. -/
theorem sorted_perm_eq_of_antisymm {α : Type} {r : α → α → Prop} :
    ∀ (l₁ l₂ : List α), l₁.Perm l₂ → l₁.Pairwise r → l₂.Pairwise r →
      (∀ a ∈ l₁, ∀ b ∈ l₁, r a b → r b a → a = b) → l₁ = l₂ := by
  intro l₁
  induction l₁ with
  | nil =>
    intro l₂ hp _ _ _
    exact hp.nil_eq
  | cons a t ih =>
    intro l₂ hp hs1 hs2 hanti
    cases l₂ with
    | nil => exact absurd hp.eq_nil (List.cons_ne_nil a t)
    | cons b t₂ =>
      have hab : a = b := by
        by_cases heq : a = b
        · exact heq
        · have hbmem : b ∈ a :: t := hp.mem_iff.mpr (List.mem_cons_self b t₂)
          have hamem : a ∈ b :: t₂ := hp.mem_iff.mp (List.mem_cons_self a t)
          have hbt : b ∈ t := by
            rcases List.mem_cons.mp hbmem with h | h
            · exact absurd h.symm heq
            · exact h
          have hat2 : a ∈ t₂ := by
            rcases List.mem_cons.mp hamem with h | h
            · exact absurd h heq
            · exact h
          have hrab : r a b := (List.pairwise_cons.mp hs1).1 b hbt
          have hrba : r b a := (List.pairwise_cons.mp hs2).1 a hat2
          exact hanti a (List.mem_cons_self a t) b hbmem hrab hrba
      subst hab
      have hp2 : t.Perm t₂ := hp.cons_inv
      have ht : t = t₂ := ih t₂ hp2 (List.pairwise_cons.mp hs1).2
        (List.pairwise_cons.mp hs2).2
        (fun x hx y hy => hanti x (List.mem_cons_of_mem _ hx) y (List.mem_cons_of_mem _ hy))
      rw [ht]

/-- C9: the board listing is the base row set ordered by rank ascending, then
current-month revenue descending, then days-since-last-activity descending
with nulls last, then partner name ascending (a permutation of the base rows,
pairwise ordered by the chain); and the ordering is deterministic — two
listings of the same annotated item set (permutations of each other) whose
sort keys are pairwise distinct come out identical. -/
theorem fetch_work_items_for_agent_ordering :
    ∀ (db : DB) (agent_id : Nat) (today : CDate),
      (fetch_work_items_for_agent db agent_id today).Pairwise
        (fun x y => boardLeB x y = true) ∧
      (fetch_work_items_for_agent db agent_id today).Perm (baseRows db agent_id today) ∧
      (∀ (l₁ l₂ : List BoardRow), l₁.Perm l₂ → (l₁.map boardKey).Nodup →
        l₁.mergeSort boardLeB = l₂.mergeSort boardLeB) := by
  intro db agent today
  refine ⟨?_, ?_, ?_⟩
  · exact List.sorted_mergeSort boardLeB_trans boardLeB_total (baseRows db agent today)
  · exact List.mergeSort_perm _ _
  · intro l₁ l₂ hp hnd
    apply sorted_perm_eq_of_antisymm (r := fun x y => boardLeB x y = true)
    · exact (List.mergeSort_perm l₁ _).trans (hp.trans (List.mergeSort_perm l₂ _).symm)
    · exact List.sorted_mergeSort boardLeB_trans boardLeB_total l₁
    · exact List.sorted_mergeSort boardLeB_trans boardLeB_total l₂
    · intro x hx y hy hxy hyx
      have hx1 : x ∈ l₁ := List.mem_mergeSort.mp hx
      have hy1 : y ∈ l₁ := List.mem_mergeSort.mp hy
      exact List.inj_on_of_nodup_map hnd hx1 hy1 (boardLeB_antisymm_key x y hxy hyx)

/-- Two concrete annotated rows with distinct sort keys. -/
def boardRowA : BoardRow :=
  { work_item_id := 1, partner_id := 1, work_date := none, status := "to_call",
    is_active := true, created_at := 0, refreshed_at := none,
    external_partner_id := "A", partner_name := "Alpha", partner_type_tag := none,
    orders_m0 := 0, rev_m0 := 5, latest_follow_up_date := none,
    days_since_last_activity := some 10, priority_bucket_key := "ar7",
    priority_bucket_rank := 40 }

def boardRowB : BoardRow :=
  { work_item_id := 2, partner_id := 2, work_date := none, status := "to_call",
    is_active := true, created_at := 0, refreshed_at := none,
    external_partner_id := "B", partner_name := "Beta", partner_type_tag := none,
    orders_m0 := 0, rev_m0 := 1, latest_follow_up_date := none,
    days_since_last_activity := some 45, priority_bucket_key := "ar40",
    priority_bucket_rank := 10 }

/-- Witness for C9: on a concrete two-row item set, the two listing orders
are permutations with distinct keys, and sorting either gives the same
board. -/
theorem fetch_work_items_for_agent_ordering_witness :
    ([boardRowA, boardRowB] : List BoardRow).Perm [boardRowB, boardRowA] ∧
    (([boardRowA, boardRowB] : List BoardRow).map boardKey).Nodup ∧
    ([boardRowA, boardRowB] : List BoardRow).mergeSort boardLeB
      = ([boardRowB, boardRowA] : List BoardRow).mergeSort boardLeB :=
  ⟨List.Perm.swap boardRowB boardRowA [], by decide,
    (fetch_work_items_for_agent_ordering staleDb 0 ⟨2026, 1, 1⟩).2.2
      [boardRowA, boardRowB] [boardRowB, boardRowA]
      (List.Perm.swap boardRowB boardRowA []) (by decide)⟩

/-- A store with one mapped partner (partner 4 → agent 9) and no work items. -/
def c6Db : DB :=
  { hasIsActiveColumn := true
    hasCreatedAtColumn := true
    hasRefreshedAtColumn := true
    work_item := []
    partner := []
    partner_agent_map := [(4, 9)]
    partner_monthly_metrics := []
    work_item_activity_log := [] }

/-- The single row `ensureCurrentItems` inserts on `c6Db`. -/
def c6Row : WorkItemRow :=
  { id := 100, partner_id := 4, work_date := none, status := "to_call",
    reason_to_work := none, is_active := false, created_at := 5,
    refreshed_at := none, updated_at := 5 }

/-- Witness for C6: on the concrete store the inserted row is initial and
inactive, and the second invocation inserts zero rows. -/
theorem ensureCurrentItems_spec_witness :
    c6Row ∈ newCurrentItems c6Db 9 100 5 ∧
    (c6Row.status = "to_call" ∧ c6Row.is_active = false) ∧
    (ensureCurrentItems (ensureCurrentItems c6Db 9 100 5).1 9 100 5).2 = 0 := by
  refine ⟨by decide, ?_, ?_⟩
  · exact (ensureCurrentItems_spec c6Db 9 100 5).2.1 c6Row (by decide)
  · exact (ensureCurrentItems_spec c6Db 9 100 5).2.2.2.2.1
